import Mathlib

/-!
Verification of the Smart Traffic Management System core
(TrafficDashboard.js, TrafficMap.js) against its natural-language
specification.  The JavaScript source is shallowly embedded: pure
functions become Lean functions, JS numbers used for coordinates,
distances and scores become rationals (exact arithmetic in place of
IEEE floats), JS arrays become lists, stateful React callbacks become
explicit state-passing functions, and `Math.random()` draws become
explicit parameters.
-/

/-! ## Signal arbitration (TrafficDashboard.js, updateSignals) -/

/-- Signal colour of one lane, as the strings "red"/"green" used by the
dashboard. -/
inductive Signal where
  | red : Signal
  | green : Signal
deriving DecidableEq, Repr

/-- Signal state of the three lanes (`lane_1`, `lane_2`, `lane_3`). -/
structure SignalState where
  lane_1 : Signal
  lane_2 : Signal
  lane_3 : Signal
deriving DecidableEq, Repr

/-- `getTotal` of TrafficDashboard.js: the per-lane vehicle total is the
sum over the per-vehicle-type counts of that lane
(`Object.values(trafficData[lane]).reduce((a, b) => a + b, 0)`).
A lane is embedded as the list of its per-vehicle-type counts. -/
def getTotal (lane : List Nat) : Nat :=
  lane.foldl (fun a b => a + b) 0

/-- `updateSignals` of TrafficDashboard.js (lines 43-65): running-minimum
scan over the three lane totals in order `lane_1`, `lane_2`, `lane_3`
with strict less-than comparisons; the lane holding the minimum at the
end is green, the other two red. -/
def updateSignals (lane1 lane2 lane3 : List Nat) : SignalState :=
  let l1 := getTotal lane1
  let l2 := getTotal lane2
  let l3 := getTotal lane3
  let m1 : Nat × Nat := (1, l1)
  let m2 : Nat × Nat := if l2 < m1.2 then (2, l2) else m1
  let m3 : Nat × Nat := if l3 < m2.2 then (3, l3) else m2
  { lane_1 := if m3.1 = 1 then Signal.green else Signal.red
    lane_2 := if m3.1 = 2 then Signal.green else Signal.red
    lane_3 := if m3.1 = 3 then Signal.green else Signal.red }

/-- Number of green lanes in a signal state. -/
def countGreen (s : SignalState) : Nat :=
  (if s.lane_1 = Signal.green then 1 else 0) +
  (if s.lane_2 = Signal.green then 1 else 0) +
  (if s.lane_3 = Signal.green then 1 else 0)

/-- C1.  Signal arbitration: for every assignment of per-lane vehicle
totals (each the sum of the per-vehicle-type counts of its lane),
`updateSignals` sets exactly one lane to green, namely the first lane in
order `lane_1`, `lane_2`, `lane_3` attaining the strictly smallest
total, and sets the other two lanes to red; totals `[5,3,8]` give
`lane_2` green and `lane_1`, `lane_3` red, and totals `[4,4,9]` give
`lane_1` green. -/
theorem C1_signal_arbitration (lane1 lane2 lane3 : List Nat) :
    countGreen (updateSignals lane1 lane2 lane3) = 1 ∧
    ((updateSignals lane1 lane2 lane3).lane_1 = Signal.green ↔
      getTotal lane1 ≤ getTotal lane2 ∧ getTotal lane1 ≤ getTotal lane3) ∧
    ((updateSignals lane1 lane2 lane3).lane_2 = Signal.green ↔
      getTotal lane2 < getTotal lane1 ∧ getTotal lane2 ≤ getTotal lane3) ∧
    ((updateSignals lane1 lane2 lane3).lane_3 = Signal.green ↔
      getTotal lane3 < getTotal lane1 ∧ getTotal lane3 < getTotal lane2) ∧
    updateSignals [5] [3] [8] =
      ⟨Signal.red, Signal.green, Signal.red⟩ ∧
    updateSignals [4] [4] [9] =
      ⟨Signal.green, Signal.red, Signal.red⟩ := by
  refine ⟨?_, ?_, ?_, ?_, by decide, by decide⟩ <;>
    · simp only [updateSignals, countGreen]
      split_ifs <;> simp_all <;> omega

/-! ## Traffic observation merge engine (TrafficMap.js, ws.onmessage) -/

/-- A traffic point / incoming observation of the push channel
(`data.data` of a `traffic_update` message).  Coordinates are rationals
standing for the JS float degrees; `level` is the congestion string
(`"low"`, `"medium"`, `"high"`); `vehicle_count` a JS number.  The push
channel delivers full records, so the JS spread
`{ ...point, ...data.data }` replaces every field of the matched point
with the incoming one. -/
structure TrafficPoint where
  id : String
  lat : ℚ
  lng : ℚ
  level : String
  vehicle_count : Int
deriving DecidableEq, Repr

/-- The match predicate of the merge (TrafficMap.js lines 1710-1714):
`point.id === data.data.id || (Math.abs(point.lat - data.data.lat) < 0.001
&& Math.abs(point.lng - data.data.lng) < 0.001)`. -/
def matchesPoint (point d : TrafficPoint) : Bool :=
  point.id == d.id ||
    (decide (|point.lat - d.lat| < 1/1000) && decide (|point.lng - d.lng| < 1/1000))

/-- The merge of one observation into the canonical collection
(TrafficMap.js lines 1708-1725): `findIndex` of the first point
matching by id or proximity; if found, that point is overwritten with
the incoming observation (`{ ...point, ...data.data }`, a full
replacement since the observation carries every field); otherwise the
observation is appended (`[...prev, data.data]`).  The recursion scans
the array front to back exactly as `findIndex` does. -/
def mergePoint : List TrafficPoint → TrafficPoint → List TrafficPoint
  | [], d => [d]
  | p :: ps, d => if matchesPoint p d then d :: ps else p :: mergePoint ps d

/-- The same merge written literally with `findIndex` and positional
update, as in the source. -/
def mergePointIdx (prev : List TrafficPoint) (d : TrafficPoint) : List TrafficPoint :=
  match prev.findIdx? (fun p => matchesPoint p d) with
  | some i => prev.set i d
  | none => prev ++ [d]

/-- Unfolding of the `findIndex`-based merge on a nonempty collection. -/
theorem mergePointIdx_cons (p : TrafficPoint) (ps : List TrafficPoint) (d : TrafficPoint) :
    mergePointIdx (p :: ps) d =
      if matchesPoint p d then d :: ps else p :: mergePointIdx ps d := by
  by_cases h : matchesPoint p d
  · simp [mergePointIdx, List.findIdx?_cons, h]
  · simp only [mergePointIdx, List.findIdx?_cons, h, Bool.false_eq_true, ite_false,
      List.findIdx?_succ]
    rcases hf : ps.findIdx? (fun p => matchesPoint p d) with _ | i
    · simp
    · simp

/-- The scanning recursion and the `findIndex`-based formulation agree. -/
theorem mergePoint_eq_mergePointIdx (prev : List TrafficPoint) (d : TrafficPoint) :
    mergePoint prev d = mergePointIdx prev d := by
  induction prev with
  | nil => rfl
  | cons p ps ih =>
    rw [mergePoint, mergePointIdx_cons, ih]

/-- Every observation matches itself: its id equals itself. -/
theorem matchesPoint_self (d : TrafficPoint) : matchesPoint d d = true := by
  simp [matchesPoint]

/-- C3.  Merge idempotence: applying the merge twice with the same
observation yields the collection obtained by applying it once. -/
theorem C3_merge_idempotent (prev : List TrafficPoint) (d : TrafficPoint) :
    mergePoint (mergePoint prev d) d = mergePoint prev d := by
  induction prev with
  | nil => simp [mergePoint, matchesPoint_self]
  | cons p ps ih =>
    by_cases h : matchesPoint p d
    · simp [mergePoint, h, matchesPoint_self]
    · simp [mergePoint, h, ih]

/-- The match predicate is symmetric: id equality and coordinate
proximity are both symmetric. -/
theorem matchesPoint_symm (a b : TrafficPoint) :
    matchesPoint a b = matchesPoint b a := by
  have hid : (a.id == b.id) = (b.id == a.id) := by
    by_cases h : a.id = b.id
    · rw [h]
    · rw [beq_eq_false_iff_ne.mpr h, beq_eq_false_iff_ne.mpr (fun e => h e.symm)]
  simp only [matchesPoint, hid, abs_sub_comm a.lat b.lat, abs_sub_comm a.lng b.lng]

/-- C4, counterexample.  The collection holds `pA = ("a", 0, 0)` and
`qA = ("q", 0.0005, 0)`; observation `d1 = ("a", 10, 10)` id-matches
`pA` without being near any point, observation `d2 = ("b", 0.0002, 0)`
is near both `pA` and `qA`.  The two observations have different ids,
are not within the proximity threshold of each other, and no existing
point is within the proximity threshold of both — the claim's
non-conflict hypothesis holds — yet merging `d1` first leaves two
points while merging `d2` first leaves three, so the final canonical
collections differ (not even as multisets). -/
theorem C4_merge_commutative_counterexample :
    (TrafficPoint.mk "a" 10 10 "high" 2).id ≠ (TrafficPoint.mk "b" (1/5000) 0 "high" 3).id ∧
    ¬ (|(10 : ℚ) - 1/5000| < 1/1000 ∧ |(10 : ℚ) - 0| < 1/1000) ∧
    ¬ ((|(0 : ℚ) - 10| < 1/1000 ∧ |(0 : ℚ) - 10| < 1/1000) ∧
       (|(0 : ℚ) - 1/5000| < 1/1000 ∧ |(0 : ℚ) - 0| < 1/1000)) ∧
    ¬ ((|(1/2000 : ℚ) - 10| < 1/1000 ∧ |(0 : ℚ) - 10| < 1/1000) ∧
       (|(1/2000 : ℚ) - 1/5000| < 1/1000 ∧ |(0 : ℚ) - 0| < 1/1000)) ∧
    (mergePoint
        (mergePoint
          [TrafficPoint.mk "a" 0 0 "low" 1, TrafficPoint.mk "q" (1/2000) 0 "low" 1]
          (TrafficPoint.mk "a" 10 10 "high" 2))
        (TrafficPoint.mk "b" (1/5000) 0 "high" 3)).length = 2 ∧
    (mergePoint
        (mergePoint
          [TrafficPoint.mk "a" 0 0 "low" 1, TrafficPoint.mk "q" (1/2000) 0 "low" 1]
          (TrafficPoint.mk "b" (1/5000) 0 "high" 3))
        (TrafficPoint.mk "a" 10 10 "high" 2)).length = 3 := by
  refine ⟨by decide, by norm_num [abs_lt], by norm_num [abs_lt], by norm_num [abs_lt], ?_, ?_⟩
  · norm_num [mergePoint, matchesPoint, abs_lt,
      show ("a" : String) ≠ "b" by decide, show ("q" : String) ≠ "b" by decide]
  · norm_num [mergePoint, matchesPoint, abs_lt,
      show ("a" : String) ≠ "b" by decide, show ("q" : String) ≠ "b" by decide,
      show ("q" : String) ≠ "a" by decide, show ("b" : String) ≠ "a" by decide]

/-- C4, amended.  Merge is commutative up to ordering for genuinely
non-conflicting observations: the two observations have different ids,
are not within the proximity threshold of each other, and no single
existing point matches both of them (by id or proximity — the original
claim restricted the last condition to coordinate proximity, which the
counterexample shows insufficient).  The final collections are then
equal as multisets (when both observations are appended, the two
append orders differ, hence permutation rather than list equality). -/
theorem C4_merge_commutative_amended (s : List TrafficPoint) (d1 d2 : TrafficPoint)
    (hid : d1.id ≠ d2.id)
    (hprox : ¬ (|d1.lat - d2.lat| < 1/1000 ∧ |d1.lng - d2.lng| < 1/1000))
    (hcommon : ∀ x ∈ s, ¬ (matchesPoint x d1 = true ∧ matchesPoint x d2 = true)) :
    (mergePoint (mergePoint s d1) d2).Perm (mergePoint (mergePoint s d2) d1) := by
  have h12 : matchesPoint d1 d2 = false := by
    simp only [matchesPoint, Bool.or_eq_false_iff, Bool.and_eq_false_iff,
      beq_eq_false_iff_ne, ne_eq, decide_eq_false_iff_not]
    refine ⟨hid, ?_⟩
    by_cases ha : |d1.lat - d2.lat| < 1/1000
    · exact Or.inr (fun hb => hprox ⟨ha, hb⟩)
    · exact Or.inl ha
  have h21 : matchesPoint d2 d1 = false := by rw [matchesPoint_symm]; exact h12
  induction s with
  | nil =>
    simp only [mergePoint, h12, h21, Bool.false_eq_true, ite_false]
    exact List.Perm.swap d2 d1 []
  | cons p ps ih =>
    by_cases hp1 : matchesPoint p d1 = true
    · by_cases hp2 : matchesPoint p d2 = true
      · exact absurd ⟨hp1, hp2⟩ (hcommon p (List.mem_cons_self p ps))
      · simp only [mergePoint, hp1, hp2, ite_true, Bool.false_eq_true, ite_false, h12]
        exact List.Perm.refl _
    · by_cases hp2 : matchesPoint p d2 = true
      · simp only [mergePoint, hp1, hp2, ite_true, Bool.false_eq_true, ite_false, h21]
        exact List.Perm.refl _
      · simp only [mergePoint, hp1, hp2, Bool.false_eq_true, ite_false]
        exact List.Perm.cons p (ih (fun x hx => hcommon x (List.mem_cons_of_mem p hx)))

/-- C4, witness for the amended theorem: two fresh far-apart
observations merged into the empty collection commute up to
permutation. -/
theorem C4_merge_commutative_witness :
    (TrafficPoint.mk "a" 0 0 "low" 1).id ≠ (TrafficPoint.mk "b" 10 10 "high" 2).id ∧
    ¬ (|(0 : ℚ) - 10| < 1/1000 ∧ |(0 : ℚ) - 10| < 1/1000) ∧
    (mergePoint (mergePoint [] (TrafficPoint.mk "a" 0 0 "low" 1))
        (TrafficPoint.mk "b" 10 10 "high" 2)).Perm
      (mergePoint (mergePoint [] (TrafficPoint.mk "b" 10 10 "high" 2))
        (TrafficPoint.mk "a" 0 0 "low" 1)) :=
  ⟨by decide, by norm_num [abs_lt],
    C4_merge_commutative_amended [] (TrafficPoint.mk "a" 0 0 "low" 1)
      (TrafficPoint.mk "b" 10 10 "high" 2) (by decide) (by norm_num [abs_lt])
      (fun x hx => absurd hx (List.not_mem_nil x))⟩

/-! ## Geodesy utilities: bounding boxes (TrafficMap.js, RouteService) -/

/-- Minimum of a nonempty list of rationals, head and tail given
separately: embeds the JS spread `Math.min(...xs)`, which the guarded
call sites only apply to nonempty arrays. -/
def listMin (x : ℚ) (xs : List ℚ) : ℚ :=
  xs.foldl min x

/-- Maximum of a nonempty list of rationals, embedding `Math.max(...xs)`. -/
def listMax (x : ℚ) (xs : List ℚ) : ℚ :=
  xs.foldl max x

theorem listMin_le (xs : List ℚ) : ∀ x y : ℚ, y ∈ x :: xs → listMin x xs ≤ y := by
  induction xs with
  | nil =>
    intro x y hy
    simp only [List.mem_singleton] at hy
    simp [listMin, hy]
  | cons z zs ih =>
    intro x y hy
    have hstep : listMin x (z :: zs) = listMin (min x z) zs := rfl
    have h1 : listMin (min x z) zs ≤ min x z :=
      ih (min x z) (min x z) (List.mem_cons_self _ _)
    rcases List.mem_cons.mp hy with hy | hy
    · rw [hstep, hy]; exact le_trans h1 (min_le_left _ _)
    · rcases List.mem_cons.mp hy with hy2 | hy2
      · rw [hstep, hy2]; exact le_trans h1 (min_le_right _ _)
      · rw [hstep]; exact ih (min x z) y (List.mem_cons_of_mem _ hy2)

theorem le_listMax (xs : List ℚ) : ∀ x y : ℚ, y ∈ x :: xs → y ≤ listMax x xs := by
  induction xs with
  | nil =>
    intro x y hy
    simp only [List.mem_singleton] at hy
    simp [listMax, hy]
  | cons z zs ih =>
    intro x y hy
    have hstep : listMax x (z :: zs) = listMax (max x z) zs := rfl
    have h1 : max x z ≤ listMax (max x z) zs :=
      ih (max x z) (max x z) (List.mem_cons_self _ _)
    rcases List.mem_cons.mp hy with hy | hy
    · rw [hstep, hy]; exact le_trans (le_max_left _ _) h1
    · rcases List.mem_cons.mp hy with hy2 | hy2
      · rw [hstep, hy2]; exact le_trans (le_max_right _ _) h1
      · rw [hstep]; exact ih (max x z) y (List.mem_cons_of_mem _ hy2)

/-- `RouteService.calculateRouteBounds` (TrafficMap.js lines 961-971):
`[[Math.min(...lats), Math.min(...lngs)], [Math.max(...lats),
Math.max(...lngs)]]` over all coordinates, `null` on an empty or
missing list.  A bounds box is `((minLat, minLng), (maxLat, maxLng))`. -/
def calculateRouteBounds (coordinates : List (ℚ × ℚ)) :
    Option ((ℚ × ℚ) × (ℚ × ℚ)) :=
  match coordinates with
  | [] => none
  | c :: cs =>
    some ((listMin c.1 (cs.map (fun coord => coord.1)),
           listMin c.2 (cs.map (fun coord => coord.2))),
          (listMax c.1 (cs.map (fun coord => coord.1)),
           listMax c.2 (cs.map (fun coord => coord.2))))

/-- The validity filter of `RouteService.calculateBoundsFromPoints`
(TrafficMap.js line 976): `points.filter(p => p && p[0] && p[1])`.  In
the embedding a point is always present, so only the JS falsiness of a
zero coordinate remains: a point survives iff neither its latitude nor
its longitude is `0`. -/
def validPoint (p : ℚ × ℚ) : Bool :=
  decide (p.1 ≠ 0) && decide (p.2 ≠ 0)

/-- `RouteService.calculateBoundsFromPoints` (TrafficMap.js lines
973-986): drop invalid points (missing, or latitude or longitude `0`),
return `null` if none survive, else the min/max box over the
survivors. -/
def calculateBoundsFromPoints (points : List (ℚ × ℚ)) :
    Option ((ℚ × ℚ) × (ℚ × ℚ)) :=
  match points with
  | [] => none
  | _ :: _ =>
    match points.filter validPoint with
    | [] => none
    | v :: vs =>
      some ((listMin v.1 (vs.map (fun coord => coord.1)),
             listMin v.2 (vs.map (fun coord => coord.2))),
            (listMax v.1 (vs.map (fun coord => coord.1)),
             listMax v.2 (vs.map (fun coord => coord.2))))

/-- A coordinate lies inside a bounds box. -/
def inBounds (b : (ℚ × ℚ) × (ℚ × ℚ)) (p : ℚ × ℚ) : Prop :=
  b.1.1 ≤ p.1 ∧ b.1.2 ≤ p.2 ∧ p.1 ≤ b.2.1 ∧ p.2 ≤ b.2.2

/-- `calculateRouteBounds` boxes contain every input coordinate. -/
theorem calculateRouteBounds_contains (coordinates : List (ℚ × ℚ))
    (b : (ℚ × ℚ) × (ℚ × ℚ)) (hb : calculateRouteBounds coordinates = some b)
    (p : ℚ × ℚ) (hp : p ∈ coordinates) : inBounds b p := by
  match coordinates with
  | [] => exact absurd hp (List.not_mem_nil p)
  | c :: cs =>
    simp only [calculateRouteBounds, Option.some.injEq] at hb
    have hlat : p.1 ∈ c.1 :: cs.map (fun coord => coord.1) := by
      rcases List.mem_cons.mp hp with h | h
      · rw [h]; exact List.mem_cons_self _ _
      · exact List.mem_cons_of_mem _ (List.mem_map_of_mem _ h)
    have hlng : p.2 ∈ c.2 :: cs.map (fun coord => coord.2) := by
      rcases List.mem_cons.mp hp with h | h
      · rw [h]; exact List.mem_cons_self _ _
      · exact List.mem_cons_of_mem _ (List.mem_map_of_mem _ h)
    rw [← hb]
    exact ⟨listMin_le _ _ _ hlat, listMin_le _ _ _ hlng,
      le_listMax _ _ _ hlat, le_listMax _ _ _ hlng⟩

/-- `calculateBoundsFromPoints` boxes contain every surviving (nonzero)
input coordinate. -/
theorem calculateBoundsFromPoints_contains (points : List (ℚ × ℚ))
    (b : (ℚ × ℚ) × (ℚ × ℚ)) (hb : calculateBoundsFromPoints points = some b)
    (p : ℚ × ℚ) (hp : p ∈ points) (h1 : p.1 ≠ 0) (h2 : p.2 ≠ 0) : inBounds b p := by
  have hpv : p ∈ points.filter validPoint := by
    rw [List.mem_filter]
    exact ⟨hp, by simp [validPoint, h1, h2]⟩
  match points with
  | [] => exact absurd hp (List.not_mem_nil p)
  | q :: qs =>
    simp only [calculateBoundsFromPoints] at hb
    rcases hf : (q :: qs).filter validPoint with _ | ⟨v, vs⟩
    · rw [hf] at hpv; exact absurd hpv (List.not_mem_nil p)
    · rw [hf] at hb hpv
      simp only [Option.some.injEq] at hb
      have hlat : p.1 ∈ v.1 :: vs.map (fun coord => coord.1) := by
        rcases List.mem_cons.mp hpv with h | h
        · rw [h]; exact List.mem_cons_self _ _
        · exact List.mem_cons_of_mem _ (List.mem_map_of_mem _ h)
      have hlng : p.2 ∈ v.2 :: vs.map (fun coord => coord.2) := by
        rcases List.mem_cons.mp hpv with h | h
        · rw [h]; exact List.mem_cons_self _ _
        · exact List.mem_cons_of_mem _ (List.mem_map_of_mem _ h)
      rw [← hb]
      exact ⟨listMin_le _ _ _ hlat, listMin_le _ _ _ hlng,
        le_listMax _ _ _ hlat, le_listMax _ _ _ hlng⟩

/-- C10.  `calculateBoundsFromPoints` discards every entry whose
latitude or longitude is `0` (JS falsiness of the coordinate) before
computing the min/max box, and returns `null` when no entry survives;
consequently a coordinate with latitude or longitude exactly `0` never
influences the bounds (dropping it from the input changes nothing) —
unlike `calculateRouteBounds`, which applies no such filter and lets a
zero coordinate into the box. -/
theorem C10_bounds_filter_zero_coords :
    (∀ (l1 l2 : List (ℚ × ℚ)) (p : ℚ × ℚ), p.1 = 0 ∨ p.2 = 0 →
        calculateBoundsFromPoints (l1 ++ p :: l2) = calculateBoundsFromPoints (l1 ++ l2)) ∧
    (∀ points : List (ℚ × ℚ), (∀ p ∈ points, p.1 = 0 ∨ p.2 = 0) →
        calculateBoundsFromPoints points = none) ∧
    calculateRouteBounds [((0 : ℚ), (5 : ℚ))] = some ((0, 5), (0, 5)) := by
  have hfilter : ∀ points : List (ℚ × ℚ),
      calculateBoundsFromPoints points =
        match points.filter validPoint with
        | [] => none
        | v :: vs =>
          some ((listMin v.1 (vs.map (fun coord => coord.1)),
                 listMin v.2 (vs.map (fun coord => coord.2))),
                (listMax v.1 (vs.map (fun coord => coord.1)),
                 listMax v.2 (vs.map (fun coord => coord.2)))) := by
    intro points
    match points with
    | [] => rfl
    | q :: qs => rfl
  refine ⟨?_, ?_, rfl⟩
  · intro l1 l2 p hp
    have hinvalid : validPoint p = false := by
      rcases hp with h | h <;> simp [validPoint, h]
    have hfeq : List.filter validPoint (l1 ++ p :: l2) =
        List.filter validPoint (l1 ++ l2) := by
      simp [List.filter_append, List.filter_cons, hinvalid]
    rw [hfilter, hfilter, hfeq]
  · intro points hall
    rw [hfilter, List.filter_eq_nil_iff.mpr
      (fun p hp => by
        rcases hall p hp with h | h <;> simp [validPoint, h])]

/-! ## Fallback route geometry (TrafficMap.js, RouteService.createCurvedRoute) -/

/-- One sample of the quadratic Bezier curve of `createCurvedRoute`
(TrafficMap.js lines 1005-1013): `(1-t)^2 * start + 2*(1-t)*t * control
+ t^2 * end`, componentwise on latitude and longitude. -/
def bezierPoint (start endP control : ℚ × ℚ) (t : ℚ) : ℚ × ℚ :=
  ((1 - t)^2 * start.1 + 2 * (1 - t) * t * control.1 + t^2 * endP.1,
   (1 - t)^2 * start.2 + 2 * (1 - t) * t * control.2 + t^2 * endP.2)

/-- `RouteService.createCurvedRoute` (TrafficMap.js lines 995-1016):
`numPoints = 20`, samples of the quadratic Bezier curve at `t = i /
numPoints` for `i = 0 .. numPoints` (21 points).  The control point is
`(midLat + (Math.random() - 0.5) * 0.01, midLng + (Math.random() - 0.5)
* 0.01)`; the random draw makes it an explicit parameter here. -/
def createCurvedRoute (start endP control : ℚ × ℚ) : List (ℚ × ℚ) :=
  (List.range (20 + 1)).map
    (fun i : ℕ => bezierPoint start endP control ((i : ℚ) / 20))

theorem bezierPoint_zero (start endP control : ℚ × ℚ) :
    bezierPoint start endP control 0 = start := by
  obtain ⟨s1, s2⟩ := start
  simp only [bezierPoint, Prod.mk.injEq]
  constructor <;> ring

theorem bezierPoint_one (start endP control : ℚ × ℚ) :
    bezierPoint start endP control 1 = endP := by
  obtain ⟨e1, e2⟩ := endP
  simp only [bezierPoint, Prod.mk.injEq]
  constructor <;> ring

/-- C5.  The synthesized fallback geometry is a quadratic Bezier curve
sampled at exactly 21 points whose first point is the start coordinate
and whose last point is the end coordinate, for every (randomly
perturbed) control point — exactly, since the embedding computes in ℚ
(the JS floats reach the same endpoints exactly because the endpoint
terms are multiplied by 1 and the others by 0). -/
theorem C5_fallback_curve_endpoints (start endP control : ℚ × ℚ) :
    (createCurvedRoute start endP control).length = 21 ∧
    (createCurvedRoute start endP control).head? = some start ∧
    (createCurvedRoute start endP control).getLast? = some endP := by
  refine ⟨by simp [createCurvedRoute], ?_, ?_⟩
  · rw [createCurvedRoute, List.range_succ_eq_map, List.map_cons, List.head?_cons]
    norm_num [bezierPoint_zero]
  · rw [createCurvedRoute, List.range_succ, List.map_append, List.map_singleton,
      List.getLast?_concat]
    norm_num [bezierPoint_one]

/-! ## Route acquisition and fallback engine (TrafficMap.js, RouteService.getRoute,
autoCalculateRoute) -/

/-- One raw route of a successful OSRM response: geojson coordinates as
`(lng, lat)` pairs plus distance (meters) and duration (seconds); the
response always carries these numbers (the JS `|| 0` defaults never
fire in the embedding). -/
structure RawRoute where
  coords : List (ℚ × ℚ)
  distance : ℚ
  duration : ℚ
deriving DecidableEq, Repr

/-- A Route object of the routing workflow.  `rid` is an embedding
artifact standing for JS object identity: the reference comparisons
(`!==`) of the recommendation code become `rid` comparisons, and
distinct route objects carry distinct `rid`s. -/
structure Route where
  rid : ℕ
  geometry : List (ℚ × ℚ)
  distance : ℚ
  duration : ℚ
  confidence : ℚ
  rtype : String
  isFallback : Bool
  bounds : Option ((ℚ × ℚ) × (ℚ × ℚ))
deriving DecidableEq, Repr

/-- `RouteService.getRouteType` (TrafficMap.js lines 988-993). -/
def getRouteType (route : RawRoute) (index : ℕ) : String :=
  if index = 0 then "OPTIMAL"
  else if route.distance < route.distance * (12/10) then "ALTERNATIVE"
  else if route.duration < route.duration * (13/10) then "TIME_SAVER"
  else "SCENIC"

/-- The mapping of one OSRM raw route at its index (TrafficMap.js lines
929-940): geometry is the coordinate list with `(lng, lat)` swapped to
`(lat, lng)`, `confidence = Math.min(0.95, (duration/60) /
(distance/1000*60*3))`, and bounds over the geometry when nonempty
(`null` otherwise).  The `rid` is the index — distinct objects. -/
def mapOsrmRoute (index : ℕ) (route : RawRoute) : Route :=
  let geometry := route.coords.map (fun coord => (coord.2, coord.1))
  { rid := index
    geometry := geometry
    distance := route.distance
    duration := route.duration
    confidence := min (95/100) ((route.duration / 60) / (route.distance / 1000 * 60 * 3))
    rtype := getRouteType route index
    isFallback := false
    bounds := if geometry.length > 0 then calculateRouteBounds geometry else none }

/-- The synthetic fallback route (TrafficMap.js lines 948-957 inside
`getRoute`, repeated verbatim at lines 1576-1585 of
`autoCalculateRoute`): curved geometry, `distance` the haversine
`calculateDistance(start, end)` — floating-point trigonometry, passed
in as the parameter `dist` — `duration = distance / 1000 * 60 * 3`,
confidence 0.3, type DIRECT, `isFallback`, and bounds over start, end
and the whole geometry via the filtering `calculateBoundsFromPoints`. -/
def fallbackRoute (start endP control : ℚ × ℚ) (dist : ℚ) : Route :=
  let fallbackGeometry := createCurvedRoute start endP control
  { rid := 0
    geometry := fallbackGeometry
    distance := dist
    duration := dist / 1000 * 60 * 3
    confidence := 3/10
    rtype := "DIRECT"
    isFallback := true
    bounds := calculateBoundsFromPoints (start :: endP :: fallbackGeometry) }

/-- `RouteService.getRoute` (TrafficMap.js lines 915-959) as a function
of the outcome of the external OSRM request: on transport failure
(`catch`) it returns the single fallback route; on a successful
response it returns the mapped routes when at least one is present and
`null` (`none`) when the response carries no routes. -/
def getRoute (start endP control : ℚ × ℚ) (dist : ℚ)
    (outcome : Except Unit (List RawRoute)) : Option (List Route) :=
  match outcome with
  | Except.ok rawRoutes =>
    if rawRoutes.length > 0 then
      some (rawRoutes.enum.map (fun ir => mapOsrmRoute ir.1 ir.2))
    else none
  | Except.error _ => some [fallbackRoute start endP control dist]

/-- The final route list of `autoCalculateRoute` (TrafficMap.js lines
1497-1600) as a function of the outcomes of the three sources: the AI
route (`fetchAiOptimizedRoute`, `none` when that source failed — its
errors are caught internally), the enhanced route (`startEndRoute`,
likewise), and the OSRM outcome consumed by `getRoute`.  The `try`
block prepends AI and enhanced routes and appends the valid
(nonempty-geometry) OSRM routes; the `catch` block replaces everything
with one fresh fallback route (a second random control point,
`control2`) whenever `getRoute` returned `null` or no valid route
survived. -/
def routesAfterAutoCalculate (aiRoute enhancedRoute : Option Route)
    (start endP control1 control2 : ℚ × ℚ) (dist : ℚ)
    (outcome : Except Unit (List RawRoute)) : List Route :=
  let routes0 :=
    (match aiRoute with | some a => [a] | none => []) ++
    (match enhancedRoute with | some e => [e] | none => [])
  match getRoute start endP control1 dist outcome with
  | some routeOptions =>
    if routeOptions.length > 0 then
      let validRoutes := routeOptions.filter (fun route => route.geometry.length > 0)
      if validRoutes.length > 0 then routes0 ++ validRoutes
      else [fallbackRoute start endP control2 dist]
    else [fallbackRoute start endP control2 dist]
  | none => [fallbackRoute start endP control2 dist]

/-- The AI-optimized route object built by `fetchAiOptimizedRoute`
(TrafficMap.js lines 1462-1473) from a backend `optimal_route` payload:
geometry is `path.map(p => [p.lat, p.lng])` (already `(lat, lng)` pairs
here), `distance = distance_km * 1000`, `duration = estimated_time_min
* 60`, confidence from the payload, and bounds over the same mapped
path via the filtering `calculateBoundsFromPoints` when the path is
nonempty (`null` otherwise).  `rid` is the object-identity artifact. -/
def aiOptimizedRouteOf (rid : ℕ) (path : List (ℚ × ℚ))
    (distance_km estimated_time_min confidence : ℚ) : Route :=
  { rid := rid
    geometry := path
    distance := distance_km * 1000
    duration := estimated_time_min * 60
    confidence := confidence
    rtype := "AI_OPTIMIZED"
    isFallback := false
    bounds := if path.length > 0 then calculateBoundsFromPoints path else none }

/-- The enhanced route object built in `autoCalculateRoute`
(TrafficMap.js lines 1517-1526) from a `start_end_route` payload: same
shape as the AI route, fixed confidence 0.8, type `ENHANCED_ROUTE`,
bounds again via the filtering `calculateBoundsFromPoints`. -/
def enhancedRouteOf (rid : ℕ) (path : List (ℚ × ℚ))
    (distance_km estimated_time_min : ℚ) : Route :=
  { rid := rid
    geometry := path
    distance := distance_km * 1000
    duration := estimated_time_min * 60
    confidence := 8/10
    rtype := "ENHANCED_ROUTE"
    isFallback := false
    bounds := if path.length > 0 then calculateBoundsFromPoints path else none }

/-- C6, counterexample.  A producible fallback route (start `(0.002,
77)`, end `(0.002, 78)`, control point `(-0.002, 77.5)` — within the
`±0.005` random perturbation of the midpoint `(0.002, 77.5)`) has the
Bezier sample at `t = 1/2` equal to `(0, 77.5)`; its zero latitude is
discarded by the validity filter of `calculateBoundsFromPoints`, so the
computed bounds box starts at latitude `1/50000` and does not contain
that geometry coordinate. -/
theorem C6_route_bounds_counterexample :
    (0, 155/2) ∈ (fallbackRoute (1/500, 77) (1/500, 78) (-1/500, 155/2) 1000).geometry ∧
    (fallbackRoute (1/500, 77) (1/500, 78) (-1/500, 155/2) 1000).bounds =
      some ((1/50000, 77), (1/500, 78)) ∧
    ¬ inBounds ((1/50000, 77), (1/500, 78)) (0, 155/2) := by
  refine ⟨?_, ?_, ?_⟩
  · have h10 : (createCurvedRoute (1/500, 77) (1/500, 78) (-1/500, 155/2)).get? 10 =
        some ((0 : ℚ), (155/2 : ℚ)) := by
      norm_num [createCurvedRoute, bezierPoint, List.range_succ]
    exact List.get?_mem h10
  · show calculateBoundsFromPoints
        ((1/500, 77) :: (1/500, 78) ::
          createCurvedRoute (1/500, 77) (1/500, 78) (-1/500, 155/2)) =
      some ((1/50000, 77), (1/500, 78))
    norm_num [createCurvedRoute, bezierPoint, List.range_succ, calculateBoundsFromPoints,
      validPoint, List.filter, listMin, listMax, min_def, max_def]
  · norm_num [inBounds]

/-- C6, amended.  For every route produced by the route acquisition
engine, the computed bounds box contains every coordinate of that
route's geometry — and for a fallback route additionally the original
start and end — except coordinates whose latitude or longitude is
exactly `0` when the bounds come from the filtering
`calculateBoundsFromPoints` (the AI-optimized, enhanced and fallback
routes), which discards such coordinates so they may fall outside the
box (the counterexample exhibits one); routes mapped from a successful
external routing response use the unfiltered `calculateRouteBounds`
and need no exception. -/
theorem C6_route_bounds_amended :
    (∀ (start endP c : ℚ × ℚ) (dist : ℚ) (raws : List RawRoute) (r : Route),
        r ∈ (getRoute start endP c dist (Except.ok raws)).getD [] →
        ∀ b, r.bounds = some b → ∀ p ∈ r.geometry, inBounds b p) ∧
    (∀ (rid : ℕ) (path : List (ℚ × ℚ)) (dk tm cf : ℚ) (b : (ℚ × ℚ) × (ℚ × ℚ)),
        (aiOptimizedRouteOf rid path dk tm cf).bounds = some b →
        ∀ p ∈ (aiOptimizedRouteOf rid path dk tm cf).geometry,
          p.1 ≠ 0 → p.2 ≠ 0 → inBounds b p) ∧
    (∀ (rid : ℕ) (path : List (ℚ × ℚ)) (dk tm : ℚ) (b : (ℚ × ℚ) × (ℚ × ℚ)),
        (enhancedRouteOf rid path dk tm).bounds = some b →
        ∀ p ∈ (enhancedRouteOf rid path dk tm).geometry,
          p.1 ≠ 0 → p.2 ≠ 0 → inBounds b p) ∧
    (∀ (start endP c : ℚ × ℚ) (dist : ℚ) (b : (ℚ × ℚ) × (ℚ × ℚ)),
        (fallbackRoute start endP c dist).bounds = some b →
        ∀ p ∈ start :: endP :: (fallbackRoute start endP c dist).geometry,
          p.1 ≠ 0 → p.2 ≠ 0 → inBounds b p) := by
  have haux : ∀ (path : List (ℚ × ℚ)) (b : (ℚ × ℚ) × (ℚ × ℚ)),
      (if path.length > 0 then calculateBoundsFromPoints path else none) = some b →
      ∀ p ∈ path, p.1 ≠ 0 → p.2 ≠ 0 → inBounds b p := by
    intro path b hb p hp h1 h2
    by_cases hlen : path.length > 0
    · rw [if_pos hlen] at hb
      exact calculateBoundsFromPoints_contains path b hb p hp h1 h2
    · rw [if_neg hlen] at hb
      exact absurd hb (by simp)
  refine ⟨?_, ?_, ?_, ?_⟩
  · intro start endP c dist raws r hr b hb p hp
    have hr2 : r ∈ (raws.enum.map (fun ir => mapOsrmRoute ir.1 ir.2)) := by
      by_cases hlen : raws.length > 0
      · simpa [getRoute, hlen] using hr
      · simp [getRoute, hlen] at hr
    obtain ⟨ir, _, hmap⟩ := List.mem_map.mp hr2
    have hgeom : r.geometry = ir.2.coords.map (fun coord => (coord.2, coord.1)) := by
      rw [← hmap]; rfl
    have hbnd : r.bounds =
        if (ir.2.coords.map (fun coord => (coord.2, coord.1))).length > 0 then
          calculateRouteBounds (ir.2.coords.map (fun coord => (coord.2, coord.1)))
        else none := by
      rw [← hmap]; rfl
    rw [hbnd] at hb
    by_cases hg : (ir.2.coords.map (fun coord => (coord.2, coord.1))).length > 0
    · rw [if_pos hg] at hb
      exact calculateRouteBounds_contains _ b hb p (by rw [← hgeom]; exact hp)
    · rw [if_neg hg] at hb
      exact absurd hb (by simp)
  · intro rid path dk tm cf b hb p hp h1 h2
    exact haux path b hb p hp h1 h2
  · intro rid path dk tm b hb p hp h1 h2
    exact haux path b hb p hp h1 h2
  · intro start endP c dist b hb p hp h1 h2
    have hb2 : calculateBoundsFromPoints
        (start :: endP :: createCurvedRoute start endP c) = some b := hb
    exact calculateBoundsFromPoints_contains _ b hb2 p hp h1 h2

/-- The fallback geometry always has 21 points, hence is nonempty. -/
theorem fallbackRoute_geometry_nonempty (start endP c : ℚ × ℚ) (dist : ℚ) :
    (fallbackRoute start endP c dist).geometry.length > 0 := by
  show (createCurvedRoute start endP c).length > 0
  simp [createCurvedRoute]

/-- C9, counterexample.  Two divergences, both with the AI source
succeeded (`aiRoute` present) so that not every source failed.  First,
when the external router responds successfully with an empty route set,
`autoCalculateRoute` throws "No routes found" and the catch block
replaces every acquired route with exactly one synthetic fallback: a
single fallback is returned although not every source failed, and the
acquired AI route is discarded.  Second, when the external router fails
at transport level, `getRoute`'s catch returns the synthetic fallback
as an ordinary route, and the result is the acquired AI route with the
fallback appended: the failed router source is not omitted from the
result set, and a synthetic fallback is returned although not every
source failed. -/
theorem C9_route_acquisition_counterexample :
    routesAfterAutoCalculate
        (some (Route.mk 5 [((1:ℚ), (1:ℚ))] 100 100 (9/10) "AI_OPTIMIZED" false none))
        none (1, 1) (2, 2) (3/2, 3/2) (3/2, 3/2) 1000 (Except.ok []) =
      [fallbackRoute (1, 1) (2, 2) (3/2, 3/2) 1000] ∧
    (fallbackRoute (1, 1) (2, 2) (3/2, 3/2) 1000).isFallback = true ∧
    Route.mk 5 [((1:ℚ), (1:ℚ))] 100 100 (9/10) "AI_OPTIMIZED" false none ∉
      [fallbackRoute (1, 1) (2, 2) (3/2, 3/2) 1000] ∧
    routesAfterAutoCalculate
        (some (Route.mk 5 [((1:ℚ), (1:ℚ))] 100 100 (9/10) "AI_OPTIMIZED" false none))
        none (1, 1) (2, 2) (3/2, 3/2) (3/2, 3/2) 1000 (Except.error ()) =
      [Route.mk 5 [((1:ℚ), (1:ℚ))] 100 100 (9/10) "AI_OPTIMIZED" false none,
       fallbackRoute (1, 1) (2, 2) (3/2, 3/2) 1000] := by
  refine ⟨rfl, rfl, ?_, ?_⟩
  · intro h
    have heq := List.mem_singleton.mp h
    have hty : ("AI_OPTIMIZED" : String) = "DIRECT" := congrArg Route.rtype heq
    exact absurd hty (by decide)
  · simp only [routesAfterAutoCalculate, getRoute]
    rw [if_pos (by simp)]
    rw [List.filter_cons_of_pos]
    · simp
    · simpa using fallbackRoute_geometry_nonempty (1, 1) (2, 2) (3/2, 3/2) 1000

/-- C9, amended.  The final route list of `autoCalculateRoute` is never
empty; failed AI/enhanced sources are simply omitted; when every source
fails (no AI route, no enhanced route, external request errors) the
result is exactly one synthetic fallback route; when the external
router succeeds with at least one valid (nonempty-geometry) route the
result is the acquired routes with no fallback added.  But — beyond
the original claim — a failed external router is not merely omitted:
on a transport failure the synthetic fallback is always appended to
whatever AI/enhanced routes were acquired, so a fallback appears even
when other sources succeeded; and when the router responds
successfully with no valid route, the single fallback replaces the
result even if AI or enhanced routes had been acquired (the
counterexample exhibits both divergences). -/
theorem C9_route_acquisition_amended (ai enh : Option Route) (start endP c1 c2 : ℚ × ℚ)
    (dist : ℚ) (outcome : Except Unit (List RawRoute)) :
    routesAfterAutoCalculate ai enh start endP c1 c2 dist outcome ≠ [] ∧
    (outcome = Except.error () →
      routesAfterAutoCalculate ai enh start endP c1 c2 dist outcome =
        ((match ai with | some a => [a] | none => []) ++
          (match enh with | some e => [e] | none => [])) ++
        [fallbackRoute start endP c1 dist]) ∧
    (ai = none → enh = none → outcome = Except.error () →
      routesAfterAutoCalculate ai enh start endP c1 c2 dist outcome =
        [fallbackRoute start endP c1 dist]) ∧
    (∀ raws, outcome = Except.ok raws →
      ((raws.enum.map (fun ir => mapOsrmRoute ir.1 ir.2)).filter
          (fun route => route.geometry.length > 0) ≠ [] →
        routesAfterAutoCalculate ai enh start endP c1 c2 dist outcome =
          ((match ai with | some a => [a] | none => []) ++
            (match enh with | some e => [e] | none => [])) ++
          (raws.enum.map (fun ir => mapOsrmRoute ir.1 ir.2)).filter
            (fun route => route.geometry.length > 0)) ∧
      ((raws.enum.map (fun ir => mapOsrmRoute ir.1 ir.2)).filter
          (fun route => route.geometry.length > 0) = [] →
        routesAfterAutoCalculate ai enh start endP c1 c2 dist outcome =
          [fallbackRoute start endP c2 dist])) := by
  have hfb1 : (fallbackRoute start endP c1 dist).geometry.length > 0 :=
    fallbackRoute_geometry_nonempty start endP c1 dist
  have herr : routesAfterAutoCalculate ai enh start endP c1 c2 dist (Except.error ()) =
      ((match ai with | some a => [a] | none => []) ++
        (match enh with | some e => [e] | none => [])) ++
      [fallbackRoute start endP c1 dist] := by
    simp only [routesAfterAutoCalculate, getRoute]
    rw [if_pos (by simp)]
    rw [List.filter_cons_of_pos]
    · simp
    · simpa using hfb1
  refine ⟨?_, ?_, ?_, ?_⟩
  · rcases outcome with u | raws
    · cases u
      rw [herr]
      intro hcontra
      rcases List.append_eq_nil.mp hcontra with ⟨_, h2⟩
      exact absurd h2 (by simp)
    · by_cases hlen : raws.length > 0
      · have hlen2 : (raws.enum.map (fun ir => mapOsrmRoute ir.1 ir.2)).length > 0 := by
          simpa using hlen
        simp only [routesAfterAutoCalculate, getRoute, if_pos hlen, if_pos hlen2]
        by_cases hval : ((raws.enum.map (fun ir => mapOsrmRoute ir.1 ir.2)).filter
            (fun route => route.geometry.length > 0)).length > 0
        · rw [if_pos hval]
          intro hcontra
          rcases List.append_eq_nil.mp hcontra with ⟨_, h2⟩
          rw [h2] at hval
          exact absurd hval (by simp)
        · rw [if_neg hval]
          simp
      · simp only [routesAfterAutoCalculate, getRoute, if_neg hlen]
        simp
  · intro ho
    subst ho
    exact herr
  · intro ha he ho
    subst ha; subst he; subst ho
    rw [herr]
    simp
  · intro raws ho
    subst ho
    constructor
    · intro hne
      have hraws : raws.length > 0 := by
        rcases raws with _ | ⟨r, rs⟩
        · simp at hne
        · simp
      have hraws2 : (raws.enum.map (fun ir => mapOsrmRoute ir.1 ir.2)).length > 0 := by
        simpa using hraws
      have hval : ((raws.enum.map (fun ir => mapOsrmRoute ir.1 ir.2)).filter
          (fun route => route.geometry.length > 0)).length > 0 :=
        List.length_pos.mpr hne
      simp only [routesAfterAutoCalculate, getRoute, if_pos hraws, if_pos hraws2,
        if_pos hval]
    · intro hempty
      by_cases hraws : raws.length > 0
      · have hval : ¬ ((raws.enum.map (fun ir => mapOsrmRoute ir.1 ir.2)).filter
            (fun route => route.geometry.length > 0)).length > 0 := by
          rw [hempty]; simp
        simp only [routesAfterAutoCalculate, getRoute, if_pos hraws, if_neg hval]
        rw [ite_self]
      · simp only [routesAfterAutoCalculate, getRoute, if_neg hraws]

/-! ## Recommendation ranking (TrafficMap.js, generateRouteRecommendations) -/

/-- A recommendation record: its category string (`rec.type` in the
source) and the Route it points to. -/
structure Recommendation where
  rectype : String
  route : Route
deriving DecidableEq, Repr

/-- Head of the stable ascending sort `[...validRoutes].sort((a, b) =>
key(a) - key(b))[0]` (TrafficMap.js lines 1982-1983): the first element
attaining the minimal key — the fold replaces the running best only on
a strictly smaller key, which is exactly what a stable sort puts
first. -/
def firstMinBy (key : Route → ℚ) (r : Route) (rs : List Route) : Route :=
  rs.foldl (fun best x => if key x < key best then x else best) r

/-- `generateRouteRecommendations` (TrafficMap.js lines 1952-2008):
empty input or no valid route (distance > 0 and duration > 0) gives an
empty list; otherwise at most one entry per category in order
AI_OPTIMIZED (first valid route of that type), ENHANCED_ROUTE (first of
that type), TIME_SAVER (the fastest valid route, skipped when it is the
very AI or enhanced object, by reference — `rid`), DISTANCE_SAVER (the
shortest valid route, likewise skipped only against the AI and enhanced
objects, not against the TIME_SAVER pick). -/
def generateRouteRecommendations (routes : List Route) : List Recommendation :=
  if routes.length = 0 then []
  else
    let validRoutes := routes.filter
      (fun route => decide (0 < route.distance) && decide (0 < route.duration))
    if validRoutes.length < 1 then []
    else
      let aiRoute := validRoutes.find? (fun route => route.rtype == "AI_OPTIMIZED")
      let enhancedRoute := validRoutes.find? (fun route => route.rtype == "ENHANCED_ROUTE")
      let recs1 := match aiRoute with
        | some a => [Recommendation.mk "AI_OPTIMIZED" a]
        | none => []
      let recs2 := match enhancedRoute with
        | some e => [Recommendation.mk "ENHANCED_ROUTE" e]
        | none => []
      let recs3 := match validRoutes with
        | [] => []
        | v :: vs =>
          let fastest := firstMinBy (fun route => route.duration) v vs
          if aiRoute.all (fun a => fastest.rid != a.rid) &&
             enhancedRoute.all (fun e => fastest.rid != e.rid) then
            [Recommendation.mk "TIME_SAVER" fastest]
          else []
      let recs4 := match validRoutes with
        | [] => []
        | v :: vs =>
          let shortest := firstMinBy (fun route => route.distance) v vs
          if aiRoute.all (fun a => shortest.rid != a.rid) &&
             enhancedRoute.all (fun e => shortest.rid != e.rid) then
            [Recommendation.mk "DISTANCE_SAVER" shortest]
          else []
      recs1 ++ recs2 ++ recs3 ++ recs4

/-- C2, counterexample.  A single valid route of a plain type (neither
AI_OPTIMIZED nor ENHANCED_ROUTE) is both the fastest and the shortest
valid route; the DISTANCE_SAVER pick is deduplicated only against the
AI and enhanced objects, not against the TIME_SAVER pick, so the same
Route object appears in two recommendation entries. -/
theorem C2_recommendations_counterexample :
    generateRouteRecommendations
        [Route.mk 1 [] 100 100 (1/2) "OPTIMAL" false none] =
      [Recommendation.mk "TIME_SAVER" (Route.mk 1 [] 100 100 (1/2) "OPTIMAL" false none),
       Recommendation.mk "DISTANCE_SAVER" (Route.mk 1 [] 100 100 (1/2) "OPTIMAL" false none)] ∧
    ¬ (generateRouteRecommendations
        [Route.mk 1 [] 100 100 (1/2) "OPTIMAL" false none]).Pairwise
      (fun a b => a.route.rid ≠ b.route.rid) := by
  have hres : generateRouteRecommendations
      [Route.mk 1 [] 100 100 (1/2) "OPTIMAL" false none] =
      [Recommendation.mk "TIME_SAVER" (Route.mk 1 [] 100 100 (1/2) "OPTIMAL" false none),
       Recommendation.mk "DISTANCE_SAVER" (Route.mk 1 [] 100 100 (1/2) "OPTIMAL" false none)] := by
    norm_num [generateRouteRecommendations, firstMinBy, List.find?, List.filter,
      Option.all, show ("OPTIMAL" == "AI_OPTIMIZED") = false from by decide,
      show ("OPTIMAL" == "ENHANCED_ROUTE") = false from by decide]
  refine ⟨hres, ?_⟩
  rw [hres]
  intro hpair
  have := (List.pairwise_cons.mp hpair).1
    (Recommendation.mk "DISTANCE_SAVER" (Route.mk 1 [] 100 100 (1/2) "OPTIMAL" false none))
    (List.mem_singleton.mpr rfl)
  exact this rfl

/-- In a list of routes with pairwise distinct `rid`s (distinct
objects), a `rid` determines the route. -/
theorem rid_inj_of_pairwise {l : List Route}
    (hp : l.Pairwise fun a b => a.rid ≠ b.rid) :
    ∀ x ∈ l, ∀ y ∈ l, x.rid = y.rid → x = y := by
  induction l with
  | nil => intro x hx; exact absurd hx (List.not_mem_nil x)
  | cons z zs ih =>
    intro x hx y hy heq
    rcases List.pairwise_cons.mp hp with ⟨hz, hzs⟩
    rcases List.mem_cons.mp hx with hx1 | hx1
    · rcases List.mem_cons.mp hy with hy1 | hy1
      · rw [hx1, hy1]
      · subst hx1; exact absurd heq (hz y hy1)
    · rcases List.mem_cons.mp hy with hy1 | hy1
      · subst hy1; exact absurd heq.symm (hz x hx1)
      · exact ih hzs x hx1 y hy1 heq

/-- C2, amended.  Under the embedding's identity discipline (pairwise
distinct `rid`s), the recommendation list is empty when no route has
distance > 0 and duration > 0; it has at most one entry per category,
in priority order AI_OPTIMIZED, ENHANCED_ROUTE, TIME_SAVER (minimum
duration), DISTANCE_SAVER (minimum distance); and no two entries point
to the same Route object except that the TIME_SAVER and DISTANCE_SAVER
entries may share one route, since the DISTANCE_SAVER pick is
deduplicated only against the AI and enhanced selections and not
against the TIME_SAVER pick (the counterexample exhibits the shared
route). -/
theorem C2_recommendations_amended (routes : List Route)
    (hrid : routes.Pairwise fun a b => a.rid ≠ b.rid) :
    ((∀ r ∈ routes, ¬ (0 < r.distance ∧ 0 < r.duration)) →
      generateRouteRecommendations routes = []) ∧
    ((generateRouteRecommendations routes).map
        (fun rec => rec.rectype)).Sublist
      ["AI_OPTIMIZED", "ENHANCED_ROUTE", "TIME_SAVER", "DISTANCE_SAVER"] ∧
    (generateRouteRecommendations routes).Pairwise
      (fun a b => a.route.rid = b.route.rid →
        a.rectype = "TIME_SAVER" ∧ b.rectype = "DISTANCE_SAVER") := by
  have hempty : (∀ r ∈ routes, ¬ (0 < r.distance ∧ 0 < r.duration)) →
      generateRouteRecommendations routes = [] := by
    intro hall
    have hfil : routes.filter
        (fun route => decide (0 < route.distance) && decide (0 < route.duration)) = [] :=
      List.filter_eq_nil_iff.mpr (fun r hr => by
        simp only [Bool.and_eq_true, decide_eq_true_eq]
        exact fun h => hall r hr h)
    by_cases h0 : routes.length = 0
    · simp [generateRouteRecommendations, h0]
    · simp [generateRouteRecommendations, h0, hfil]
  refine ⟨hempty, ?_⟩
  by_cases h0 : routes.length = 0
  · have h0' : routes = [] := List.length_eq_zero.mp h0
    subst h0'
    exact ⟨by simp [generateRouteRecommendations], by simp [generateRouteRecommendations]⟩
  rcases hv : routes.filter
      (fun route => decide (0 < route.distance) && decide (0 < route.duration))
    with _ | ⟨v, vs⟩
  · have hres : generateRouteRecommendations routes = [] := by
      simp [generateRouteRecommendations, h0, hv]
    rw [hres]
    exact ⟨List.nil_sublist _, List.Pairwise.nil⟩
  have hpairv : (v :: vs).Pairwise (fun a b => a.rid ≠ b.rid) := by
    have hsub : List.Sublist (v :: vs) routes := by
      rw [← hv]; exact List.filter_sublist routes
    exact List.Pairwise.sublist hsub hrid
  have hres : generateRouteRecommendations routes =
      (match (v :: vs).find? (fun route => route.rtype == "AI_OPTIMIZED") with
        | some a => [Recommendation.mk "AI_OPTIMIZED" a]
        | none => []) ++
      (match (v :: vs).find? (fun route => route.rtype == "ENHANCED_ROUTE") with
        | some e => [Recommendation.mk "ENHANCED_ROUTE" e]
        | none => []) ++
      (if ((v :: vs).find? (fun route => route.rtype == "AI_OPTIMIZED")).all
            (fun a => (firstMinBy (fun route => route.duration) v vs).rid != a.rid) &&
          ((v :: vs).find? (fun route => route.rtype == "ENHANCED_ROUTE")).all
            (fun e => (firstMinBy (fun route => route.duration) v vs).rid != e.rid) then
        [Recommendation.mk "TIME_SAVER" (firstMinBy (fun route => route.duration) v vs)]
      else []) ++
      (if ((v :: vs).find? (fun route => route.rtype == "AI_OPTIMIZED")).all
            (fun a => (firstMinBy (fun route => route.distance) v vs).rid != a.rid) &&
          ((v :: vs).find? (fun route => route.rtype == "ENHANCED_ROUTE")).all
            (fun e => (firstMinBy (fun route => route.distance) v vs).rid != e.rid) then
        [Recommendation.mk "DISTANCE_SAVER" (firstMinBy (fun route => route.distance) v vs)]
      else []) := by
    simp only [generateRouteRecommendations, if_neg h0, hv]
    norm_num
  rw [hres]
  set fA := (v :: vs).find? (fun route => route.rtype == "AI_OPTIMIZED") with hfA
  set fE := (v :: vs).find? (fun route => route.rtype == "ENHANCED_ROUTE") with hfE
  set F := firstMinBy (fun route => route.duration) v vs with hF
  set S := firstMinBy (fun route => route.distance) v vs with hS
  have hAfact : ∀ a, fA = some a → a ∈ v :: vs ∧ a.rtype = "AI_OPTIMIZED" := by
    intro a ha
    rw [hfA] at ha
    exact ⟨List.mem_of_find?_eq_some ha, by simpa using List.find?_some ha⟩
  have hEfact : ∀ e, fE = some e → e ∈ v :: vs ∧ e.rtype = "ENHANCED_ROUTE" := by
    intro e he
    rw [hfE] at he
    exact ⟨List.mem_of_find?_eq_some he, by simpa using List.find?_some he⟩
  have m1 : ∀ x ∈ (match fA with
        | some a => [Recommendation.mk "AI_OPTIMIZED" a]
        | none => ([] : List Recommendation)),
      ∃ a, fA = some a ∧ x = Recommendation.mk "AI_OPTIMIZED" a := by
    rcases fA with _ | a
    · intro x hx; simp at hx
    · intro x hx; exact ⟨a, rfl, List.mem_singleton.mp hx⟩
  have m2 : ∀ x ∈ (match fE with
        | some e => [Recommendation.mk "ENHANCED_ROUTE" e]
        | none => ([] : List Recommendation)),
      ∃ e, fE = some e ∧ x = Recommendation.mk "ENHANCED_ROUTE" e := by
    rcases fE with _ | e
    · intro x hx; simp at hx
    · intro x hx; exact ⟨e, rfl, List.mem_singleton.mp hx⟩
  have m3 : ∀ x ∈ (if fA.all (fun a => F.rid != a.rid) &&
          fE.all (fun e => F.rid != e.rid) then
        [Recommendation.mk "TIME_SAVER" F] else []),
      x = Recommendation.mk "TIME_SAVER" F ∧
        (fA.all (fun a => F.rid != a.rid) && fE.all (fun e => F.rid != e.rid)) = true := by
    by_cases hg : (fA.all (fun a => F.rid != a.rid) &&
        fE.all (fun e => F.rid != e.rid)) = true
    · rw [if_pos hg]; intro x hx; exact ⟨List.mem_singleton.mp hx, hg⟩
    · rw [if_neg hg]; intro x hx; simp at hx
  have m4 : ∀ x ∈ (if fA.all (fun a => S.rid != a.rid) &&
          fE.all (fun e => S.rid != e.rid) then
        [Recommendation.mk "DISTANCE_SAVER" S] else []),
      x = Recommendation.mk "DISTANCE_SAVER" S ∧
        (fA.all (fun a => S.rid != a.rid) && fE.all (fun e => S.rid != e.rid)) = true := by
    by_cases hg : (fA.all (fun a => S.rid != a.rid) &&
        fE.all (fun e => S.rid != e.rid)) = true
    · rw [if_pos hg]; intro x hx; exact ⟨List.mem_singleton.mp hx, hg⟩
    · rw [if_neg hg]; intro x hx; simp at hx
  constructor
  · -- at most one entry per category, in priority order
    have s1 : ∀ A : Option Route,
        ((match A with
          | some a => [Recommendation.mk "AI_OPTIMIZED" a]
          | none => ([] : List Recommendation)).map
          (fun rec : Recommendation => rec.rectype)).Sublist
          ["AI_OPTIMIZED"] := by
      intro A; rcases A with _ | a <;> simp
    have s2 : ∀ E : Option Route,
        ((match E with
          | some e => [Recommendation.mk "ENHANCED_ROUTE" e]
          | none => ([] : List Recommendation)).map
          (fun rec : Recommendation => rec.rectype)).Sublist
          ["ENHANCED_ROUTE"] := by
      intro E; rcases E with _ | e <;> simp
    have s3 : ∀ (c : Bool) (r : Route) (ty : String),
        ((if c then [Recommendation.mk ty r] else []).map
          (fun rec : Recommendation => rec.rectype)).Sublist [ty] := by
      intro c r ty; rcases c <;> simp
    simp only [List.map_append]
    exact (((s1 fA).append (s2 fE)).append (s3 _ F "TIME_SAVER")).append
      (s3 _ S "DISTANCE_SAVER")
  · -- no duplicate routes except TIME_SAVER/DISTANCE_SAVER
    have pmatch : ∀ (l : List Recommendation), l.length ≤ 1 →
        l.Pairwise (fun a b => a.route.rid = b.route.rid →
          a.rectype = "TIME_SAVER" ∧ b.rectype = "DISTANCE_SAVER") := by
      intro l hl
      rcases l with _ | ⟨x, xs⟩
      · exact List.Pairwise.nil
      · rcases xs with _ | ⟨y, ys⟩
        · simp
        · simp at hl
    have len1 : ∀ (A : Option Route) (ty : String),
        (match A with
          | some a => [Recommendation.mk ty a]
          | none => ([] : List Recommendation)).length ≤ 1 := by
      intro A ty; rcases A with _ | a <;> simp
    have len2 : ∀ (c : Bool) (r : Route) (ty : String),
        (if c then [Recommendation.mk ty r] else []).length ≤ 1 := by
      intro c r ty; rcases c <;> simp
    refine List.pairwise_append.mpr ⟨List.pairwise_append.mpr
      ⟨List.pairwise_append.mpr ⟨pmatch _ (len1 fA "AI_OPTIMIZED"),
        pmatch _ (len1 fE "ENHANCED_ROUTE"), ?_⟩,
        pmatch _ (len2 _ F "TIME_SAVER"), ?_⟩,
        pmatch _ (len2 _ S "DISTANCE_SAVER"), ?_⟩
    · -- AI entry vs ENHANCED entry: distinct objects
      intro x hx y hy
      obtain ⟨a, ha, hxa⟩ := m1 x hx
      obtain ⟨e, he, hye⟩ := m2 y hy
      subst hxa; subst hye
      intro heq
      have hae : a = e :=
        rid_inj_of_pairwise hpairv a (hAfact a ha).1 e (hEfact e he).1 heq
      have hty : "AI_OPTIMIZED" = "ENHANCED_ROUTE" := by
        rw [← (hAfact a ha).2, hae, (hEfact e he).2]
      exact absurd hty (by decide)
    · -- AI/ENHANCED entries vs TIME_SAVER entry: the guards exclude rid equality
      intro x hx y hy
      obtain ⟨hyF, hg⟩ := m3 y hy
      subst hyF
      rcases List.mem_append.mp hx with hx1 | hx1
      · obtain ⟨a, ha, hxa⟩ := m1 x hx1
        subst hxa
        intro heq
        rw [ha] at hg
        simp only [Option.all_some, Bool.and_eq_true, bne_iff_ne, ne_eq] at hg
        exact absurd heq.symm hg.1
      · obtain ⟨e, he, hxe⟩ := m2 x hx1
        subst hxe
        intro heq
        rw [he] at hg
        simp only [Option.all_some, Bool.and_eq_true, bne_iff_ne, ne_eq] at hg
        exact absurd heq.symm hg.2
    · -- everything vs DISTANCE_SAVER entry
      intro x hx y hy
      obtain ⟨hyS, hg⟩ := m4 y hy
      subst hyS
      rcases List.mem_append.mp hx with hx1 | hx1
      · rcases List.mem_append.mp hx1 with hx2 | hx2
        · obtain ⟨a, ha, hxa⟩ := m1 x hx2
          subst hxa
          intro heq
          rw [ha] at hg
          simp only [Option.all_some, Bool.and_eq_true, bne_iff_ne, ne_eq] at hg
          exact absurd heq.symm hg.1
        · obtain ⟨e, he, hxe⟩ := m2 x hx2
          subst hxe
          intro heq
          rw [he] at hg
          simp only [Option.all_some, Bool.and_eq_true, bne_iff_ne, ne_eq] at hg
          exact absurd heq.symm hg.2
      · obtain ⟨hxF, _⟩ := m3 x hx1
        subst hxF
        intro _
        exact ⟨rfl, rfl⟩

/-- C2, witness for the amended theorem at a one-route input. -/
theorem C2_recommendations_witness :
    ([Route.mk 1 [] 100 100 (1/2) "OPTIMAL" false none].Pairwise
      fun a b => a.rid ≠ b.rid) ∧
    (((∀ r ∈ [Route.mk 1 [] 100 100 (1/2) "OPTIMAL" false none],
        ¬ (0 < r.distance ∧ 0 < r.duration)) →
      generateRouteRecommendations [Route.mk 1 [] 100 100 (1/2) "OPTIMAL" false none] = []) ∧
    ((generateRouteRecommendations
        [Route.mk 1 [] 100 100 (1/2) "OPTIMAL" false none]).map
        (fun rec => rec.rectype)).Sublist
      ["AI_OPTIMIZED", "ENHANCED_ROUTE", "TIME_SAVER", "DISTANCE_SAVER"] ∧
    (generateRouteRecommendations
        [Route.mk 1 [] 100 100 (1/2) "OPTIMAL" false none]).Pairwise
      (fun a b => a.route.rid = b.route.rid →
        a.rectype = "TIME_SAVER" ∧ b.rectype = "DISTANCE_SAVER")) :=
  ⟨by simp,
    C2_recommendations_amended [Route.mk 1 [] 100 100 (1/2) "OPTIMAL" false none]
      (by simp)⟩

/-! ## Fuzzy place resolver (TrafficMap.js, RouteService.fuzzyMatchLocation) -/

/-- A character the JS regex class `\w` keeps: ASCII letters, digits,
underscore. -/
def isWordChar (c : Char) : Bool :=
  c.isAlphanum || c == '_'

/-- A character of the JS regex class `\s` (the whitespace the inputs
can contain). -/
def isSpaceChar (c : Char) : Bool :=
  c == ' ' || c == '\t' || c == '\n' || c == '\r'

/-- The `normalize` closure of `fuzzyMatchLocation` (TrafficMap.js line
862): `str.toLowerCase().replace(/[^\w\s]/g, '').trim()` — lowercase,
drop every character that is neither word nor whitespace, trim. -/
def normalizeStr (str : String) : String :=
  (String.mk ((str.data.map Char.toLower).filter
    (fun c => isWordChar c || isSpaceChar c))).trim

/-- `split(/\s+/)` on a trimmed string: split at whitespace runs; the
empty string yields `[""]` exactly as in JS. -/
def splitWs (s : String) : List String :=
  let parts := (s.split isSpaceChar).filter (fun w => w ≠ "")
  if parts.isEmpty then [""] else parts

/-- `RouteService.levenshteinDistance` (TrafficMap.js lines 894-913):
the standard unit-cost edit distance, written as the textbook recursion
that the full DP matrix of the source computes (the `!a || !b` guard is
the two base cases: against an empty string the distance is the other
string's length). -/
def levenshteinDistance : List Char → List Char → Nat
  | [], b => b.length
  | a, [] => a.length
  | x :: xs, y :: ys =>
    if x = y then levenshteinDistance xs ys
    else 1 + min (levenshteinDistance xs (y :: ys))
        (min (levenshteinDistance (x :: xs) ys) (levenshteinDistance xs ys))
termination_by a b => a.length + b.length

/-- A gazetteer candidate: known location name and coordinates. -/
structure Candidate where
  name : String
  lat : ℚ
  lng : ℚ
deriving DecidableEq, Repr

/-- The per-candidate composite score of `fuzzyMatchLocation`
(TrafficMap.js lines 865-888): exact normalized match scores 1.0;
otherwise the maximum of the 0.8 substring-containment score (either
direction), the token-overlap ratio `|shared| / max(|input words|,
|candidate words|)`, and the 0.7-weighted edit-distance similarity
`(1 - distance / max length) * 0.7` (applied when the max length is
positive). -/
def scoreOf (input : String) (candidate : Candidate) : ℚ :=
  let inputNorm := normalizeStr input
  let candidateNorm := normalizeStr candidate.name
  if candidateNorm = inputNorm then 1
  else
    let score1 : ℚ :=
      if List.IsInfix inputNorm.data candidateNorm.data ∨
          List.IsInfix candidateNorm.data inputNorm.data then 8/10
      else 0
    let inputWords := splitWs inputNorm
    let candidateWords := splitWs candidateNorm
    let overlap := (inputWords.filter (fun word => candidateWords.contains word)).length
    let score2 := max score1
      ((overlap : ℚ) / ((max inputWords.length candidateWords.length : ℕ) : ℚ))
    let maxLength := max inputNorm.length candidateNorm.length
    if maxLength > 0 then
      let distance := levenshteinDistance inputNorm.data candidateNorm.data
      let similarity : ℚ := 1 - (distance : ℚ) / (maxLength : ℚ)
      max score2 (similarity * (7/10))
    else score2

/-- `RouteService.fuzzyMatchLocation` (TrafficMap.js lines 859-892):
score every candidate, sort descending by score (`sort((a, b) =>
b.score - a.score)`, a stable sort, here `mergeSort` with the same
descending order), and return the top candidate only when its score
strictly exceeds 0.3 — `null` otherwise, also for empty input
(`!input`) or an empty candidate list (`scores[0]` undefined). -/
def fuzzyMatchLocation (input : String) (candidates : List Candidate) :
    Option Candidate :=
  if input = "" then none
  else
    let scores := candidates.map (fun candidate => (candidate, scoreOf input candidate))
    let sorted := scores.mergeSort (fun a b => decide (b.2 ≤ a.2))
    match sorted with
    | [] => none
    | top :: _ => if top.2 > 3/10 then some top.1 else none

/-- C7.  For every nonempty input string: when every candidate's
composite score is at most 0.3, `fuzzyMatchLocation` returns `null`;
and whenever it returns a candidate, that candidate's score strictly
exceeds 0.3 and is maximal among all candidates (it is a top-scoring
candidate). -/
theorem C7_fuzzy_threshold (input : String) (candidates : List Candidate)
    (hin : input ≠ "") :
    ((∀ c ∈ candidates, scoreOf input c ≤ 3/10) →
      fuzzyMatchLocation input candidates = none) ∧
    (∀ r, fuzzyMatchLocation input candidates = some r →
      scoreOf input r > 3/10 ∧ ∀ c ∈ candidates, scoreOf input c ≤ scoreOf input r) := by
  have htrans : ∀ a b c : Candidate × ℚ,
      (fun a b : Candidate × ℚ => decide (b.2 ≤ a.2)) a b = true →
      (fun a b : Candidate × ℚ => decide (b.2 ≤ a.2)) b c = true →
      (fun a b : Candidate × ℚ => decide (b.2 ≤ a.2)) a c = true := by
    intro a b c hab hbc
    simp only [decide_eq_true_eq] at hab hbc ⊢
    exact le_trans hbc hab
  have htotal : ∀ a b : Candidate × ℚ,
      ((fun a b : Candidate × ℚ => decide (b.2 ≤ a.2)) a b ||
       (fun a b : Candidate × ℚ => decide (b.2 ≤ a.2)) b a) = true := by
    intro a b
    simp only [Bool.or_eq_true, decide_eq_true_eq]
    exact le_total b.2 a.2
  constructor
  · intro hall
    simp only [fuzzyMatchLocation, if_neg hin]
    rcases hs : (candidates.map
        (fun candidate => (candidate, scoreOf input candidate))).mergeSort
        (fun a b => decide (b.2 ≤ a.2)) with _ | ⟨top, rest⟩
    · rfl
    · have htopmem : top ∈ (candidates.map
          (fun candidate => (candidate, scoreOf input candidate))).mergeSort
          (fun a b => decide (b.2 ≤ a.2)) := by
        rw [hs]; exact List.mem_cons_self top rest
      have htopin := List.mem_mergeSort.mp htopmem
      obtain ⟨c, hc, hceq⟩ := List.mem_map.mp htopin
      have hscore : top.2 ≤ 3/10 := by
        rw [← hceq]; exact hall c hc
      show (if top.2 > 3/10 then some top.1 else none) = none
      rw [if_neg (by exact not_lt.mpr hscore)]
  · intro r hr
    simp only [fuzzyMatchLocation, if_neg hin] at hr
    rcases hs : (candidates.map
        (fun candidate => (candidate, scoreOf input candidate))).mergeSort
        (fun a b => decide (b.2 ≤ a.2)) with _ | ⟨top, rest⟩
    · rw [hs] at hr
      exact absurd (show (none : Option Candidate) = some r from hr) (by simp)
    · rw [hs] at hr
      have hr2if : (if top.2 > 3/10 then some top.1 else none) = some r := hr
      by_cases htop : top.2 > 3/10
      · rw [if_pos htop] at hr2if
        have hrtop : r = top.1 := (Option.some_inj.mp hr2if).symm
        have htopmem : top ∈ (candidates.map
            (fun candidate => (candidate, scoreOf input candidate))).mergeSort
            (fun a b => decide (b.2 ≤ a.2)) := by
          rw [hs]; exact List.mem_cons_self top rest
        obtain ⟨c, hc, hceq⟩ := List.mem_map.mp (List.mem_mergeSort.mp htopmem)
        have hr2 : scoreOf input r = top.2 := by
          rw [hrtop, ← hceq]
        constructor
        · rw [hr2]; exact htop
        · intro c2 hc2
          have hmem2 : (c2, scoreOf input c2) ∈ (candidates.map
              (fun candidate => (candidate, scoreOf input candidate))).mergeSort
              (fun a b => decide (b.2 ≤ a.2)) :=
            List.mem_mergeSort.mpr (List.mem_map_of_mem _ hc2)
          rw [hs] at hmem2
          rcases List.mem_cons.mp hmem2 with h2 | h2
          · rw [hr2, ← h2]
          · have hsorted := List.sorted_mergeSort htrans htotal
              (candidates.map (fun candidate => (candidate, scoreOf input candidate)))
            rw [hs] at hsorted
            have hle := (List.pairwise_cons.mp hsorted).1 (c2, scoreOf input c2) h2
            simp only [decide_eq_true_eq] at hle
            rw [hr2]
            exact hle
      · rw [if_neg htop] at hr2if
        exact absurd hr2if (by simp)

/-- C7, witness: a concrete nonempty input against one dissimilar
candidate. -/
theorem C7_fuzzy_threshold_witness :
    ("qqq" ≠ "") ∧
    (((∀ c ∈ [Candidate.mk "x" 0 0], scoreOf "qqq" c ≤ 3/10) →
      fuzzyMatchLocation "qqq" [Candidate.mk "x" 0 0] = none) ∧
    (∀ r, fuzzyMatchLocation "qqq" [Candidate.mk "x" 0 0] = some r →
      scoreOf "qqq" r > 3/10 ∧
        ∀ c ∈ [Candidate.mk "x" 0 0], scoreOf "qqq" c ≤ scoreOf "qqq" r)) :=
  ⟨by decide, C7_fuzzy_threshold "qqq" [Candidate.mk "x" 0 0] (by decide)⟩

/-! ## Aggregate statistics (TrafficMap.js, fetchBackendData and
handleTrafficUpdate) -/

/-- `point.level === 'high' || point.level === 'medium'` — the
congestion predicate of the statistics code. -/
def congestedLevel (level : String) : Bool :=
  level == "high" || level == "medium"

/-- The derived aggregates the claim is about. -/
structure TrafficStats where
  total_vehicles : Int
  congested_points : Nat
deriving DecidableEq, Repr

/-- The full recomputation of `fetchBackendData` (TrafficMap.js lines
1380-1392): `total_vehicles` is the sum of `vehicle_count` over all
points, `congested_points` the count of points at level medium or
high. -/
def computeStats (trafficPoints : List TrafficPoint) : TrafficStats :=
  { total_vehicles := (trafficPoints.map (fun point => point.vehicle_count)).sum
    congested_points :=
      (trafficPoints.filter (fun point => congestedLevel point.level)).length }

/-- `handleTrafficUpdate` (TrafficMap.js lines 1624-1646): the new
collection maps every point with the update's exact coordinates to the
merged (fully overwritten) point — never appending an unmatched update
— while the statistics are computed from the PRE-update `trafficData`
closure: `total_vehicles` by an incremental adjustment (old sum, plus
the update's count, minus the count of the first coordinate-matched old
point), and `congested_points` as the congested count of the old
collection, ignoring the update's level entirely. -/
def handleTrafficUpdate (trafficData : List TrafficPoint) (u : TrafficPoint) :
    List TrafficPoint × TrafficStats :=
  let newData := trafficData.map (fun point =>
    if point.lat = u.lat ∧ point.lng = u.lng then u else point)
  let totalVehicles :=
    (trafficData.map (fun point => point.vehicle_count)).sum + u.vehicle_count -
      (match trafficData.find? (fun point =>
          decide (point.lat = u.lat) && decide (point.lng = u.lng)) with
        | some p => p.vehicle_count
        | none => 0)
  let congestedPoints :=
    (trafficData.filter (fun point => congestedLevel point.level)).length
  (newData, { total_vehicles := totalVehicles, congested_points := congestedPoints })

/-- C8.  The aggregates are NOT always recomputed from the post-merge
collection: when an update raises a point's level from low to high,
`handleTrafficUpdate` reports `congested_points = 0` although the
post-merge collection has one congested point; and when the update
matches no existing point, the collection is left unchanged (the map
appends nothing) while `total_vehicles` is still incremented by the
update's count, drifting from the true sum. -/
theorem C8_aggregates_failing_eval :
    (handleTrafficUpdate [TrafficPoint.mk "p1" 1 1 "low" 5]
        (TrafficPoint.mk "p1" 1 1 "high" 7)).1 =
      [TrafficPoint.mk "p1" 1 1 "high" 7] ∧
    (handleTrafficUpdate [TrafficPoint.mk "p1" 1 1 "low" 5]
        (TrafficPoint.mk "p1" 1 1 "high" 7)).2.congested_points = 0 ∧
    (computeStats (handleTrafficUpdate [TrafficPoint.mk "p1" 1 1 "low" 5]
        (TrafficPoint.mk "p1" 1 1 "high" 7)).1).congested_points = 1 ∧
    (handleTrafficUpdate [TrafficPoint.mk "p1" 1 1 "low" 5]
        (TrafficPoint.mk "p2" 8 8 "low" 7)).1 =
      [TrafficPoint.mk "p1" 1 1 "low" 5] ∧
    (handleTrafficUpdate [TrafficPoint.mk "p1" 1 1 "low" 5]
        (TrafficPoint.mk "p2" 8 8 "low" 7)).2.total_vehicles = 12 ∧
    (computeStats (handleTrafficUpdate [TrafficPoint.mk "p1" 1 1 "low" 5]
        (TrafficPoint.mk "p2" 8 8 "low" 7)).1).total_vehicles = 5 := by
  refine ⟨?_, ?_, ?_, ?_, ?_, ?_⟩ <;>
    norm_num [handleTrafficUpdate, computeStats, congestedLevel, List.find?,
      List.filter, show ("low" == "high") = false from by decide,
      show ("low" == "medium") = false from by decide,
      show ("high" == "high") = true from by decide]
